import Mathlib

/-!
Verification of the element-tagging and action-execution subsystem of the
AIbrowser repository (an autonomous browser-automation agent), as a shallow
embedding in Lean 4.

Embedded components (file / symbol of the source):
* `ElementTagger.tagInteractiveElements` and its in-page helper
  `processElementsInDocument` (src/automation/ElementTagger.ts);
* `WebAgent.validateParameters` with its per-key validator table
  (src/agent/WebAgent.ts);
* `PageActions.typeText`'s role/input_type validation (src/automation/PageActions.ts);
* `RiskEvaluator.evaluateRisk`, `parseRiskAssessment`, `shouldBlockAction`
  (src/security/RiskEvaluator.ts);
* `WebAgent.executeAction`'s control flow (src/agent/WebAgent.ts);
* `BrowserManager.registerPage`, `sanitizeFilePath`, `takeScreenshot`
  (src/automation/BrowserManager.ts).

Browser/host primitives (DOM queries, Playwright calls, `fs`, `path`,
the WHATWG `URL` constructor, `JSON.stringify`) are modelled by explicit
Lean functions or by environment records passed as parameters; each model
notes what it abstracts.
-/

/-- Whether `pat` occurs contiguously in the character list. -/
def containsSeg (pat : List Char) : List Char → Bool
  | [] => pat.isPrefixOf []
  | c :: rest => pat.isPrefixOf (c :: rest) || containsSeg pat rest

/-- Substring test, the model of JavaScript `String.prototype.includes`:
`strContains s pat` is `true` iff `pat` occurs contiguously in `s`. -/
def strContains (s pat : String) : Bool :=
  containsSeg pat.toList s.toList

/-- Model of JavaScript `String.prototype.trim` (whitespace stripping at both
ends), written over the character list so that it evaluates by kernel
reduction. -/
def jsTrim (s : String) : String :=
  String.mk (((s.toList.dropWhile Char.isWhitespace).reverse.dropWhile
    Char.isWhitespace).reverse)

/-- Model of `String.prototype.toLowerCase` (ASCII case only). -/
def jsToLower (s : String) : String :=
  String.mk (s.toList.map Char.toLower)

/-- Model of `String.prototype.startsWith`. -/
def strStartsWith (s pat : String) : Bool :=
  pat.toList.isPrefixOf s.toList

/-- Model of `String.prototype.endsWith`. -/
def strEndsWith (s pat : String) : Bool :=
  pat.toList.reverse.isPrefixOf s.toList.reverse

/-- Split a character list at every occurrence of the character `c`. -/
def splitCharList (c : Char) : List Char → List (List Char)
  | [] => [[]]
  | x :: xs =>
    if x = c then [] :: splitCharList c xs
    else
      match splitCharList c xs with
      | [] => [[x]]
      | g :: gs => (x :: g) :: gs

/- ===================== Element tagger (ElementTagger.ts) ===================== -/

/-- One candidate interactive element of a document, as seen by the browser-side
code of `processElementsInDocument`.  `tagName` is the lowercased tag name,
`roleAttr` the `role` attribute (`""` when absent, which is how JavaScript's
`getAttribute(...) || fallback` treats it), `text` the string produced by the
`getElementText` extraction chain (whose DOM-walking internals are not modelled:
only the resulting string matters to tagging), `visible` the aggregate of the
style/hidden-attribute/offsetParent/bounding-rect checks of lines 256-276, and
`agentId` the current `data-agent-id` attribute (numeric tags only, as stamped
by the tagger itself via `idCounter.toString()`). -/
structure ScanElem where
  tagName : String
  roleAttr : String
  text : String
  visible : Bool
  agentId : Option Nat
deriving DecidableEq, Repr

/-- `getElementRole` of ElementTagger.ts: tag-name based role fallback.
Note it returns the tag name itself for unknown tags, hence never `""`. -/
def getElementRole (tagName : String) : String :=
  if tagName = "input" then "input"
  else if tagName = "a" then "link"
  else if tagName = "button" then "button"
  else if tagName = "select" then "select"
  else if tagName = "textarea" then "textarea"
  else if tagName = "label" then "label"
  else if tagName = "details" then "details"
  else if tagName = "summary" then "summary"
  else tagName

/-- Line 277 of ElementTagger.ts: `element.getAttribute('role') || getElementRole(...)`. -/
def elemRole (e : ScanElem) : String :=
  if e.roleAttr = "" then getElementRole e.tagName else e.roleAttr

/-- Form-control tags that are always kept even with empty text (line 286). -/
def isFormTag (t : String) : Bool :=
  t = "input" || t = "textarea" || t = "select"

/-- The keep/skip decision of the per-element loop (lines 249-292): skip
iframes, skip hidden/zero-size elements, keep form controls unconditionally,
and skip other elements only when both text and role are empty (a branch that
is in fact unreachable because `elemRole` is never empty). -/
def keepElem (e : ScanElem) : Bool :=
  e.tagName ≠ "iframe" && e.visible &&
    (isFormTag e.tagName || !(jsTrim e.text = "" && elemRole e = ""))

/-- The output record of the tagger (interface `TaggerElement`), restricted to
the fields the tagging algorithm itself computes and that the identifier claims
depend on; `value`, `input_type` and `input_group` are pure per-element
extractions that do not influence id assignment and are elided. -/
structure TaggerElement where
  id : Nat
  role : String
  text : String
deriving DecidableEq, Repr

/-- Lines 294-318 of ElementTagger.ts for one element: reuse an existing
`data-agent-id` if present, otherwise stamp the element with the current
counter value and increment; returns (emitted record, updated element,
updated counter). -/
def elemStep (e : ScanElem) (c : Nat) : Option TaggerElement × ScanElem × Nat :=
  if keepElem e then
    match e.agentId with
    | some i => (some { id := i, role := elemRole e, text := jsTrim e.text }, e, c)
    | none =>
        (some { id := c, role := elemRole e, text := jsTrim e.text },
         { e with agentId := some c }, c + 1)
  else (none, e, c)

/-- The `interactiveElements.forEach` pass over one document's own elements
(lines 245-322), threading the id counter left to right. -/
def elemPass : List ScanElem → Nat → List TaggerElement × Nat × List ScanElem
  | [], c => ([], c, [])
  | e :: rest, c =>
    ((elemStep e c).1.toList ++ (elemPass rest (elemStep e c).2.2).1,
     (elemPass rest (elemStep e c).2.2).2.1,
     (elemStep e c).2.1 :: (elemPass rest (elemStep e c).2.2).2.2)

mutual
/-- One document: its own candidate elements (in `querySelectorAll` document
order) and its child iframes (in their own document order).  The code
processes all of a document's elements before any of its iframes, so the
relative interleaving of elements and iframes is irrelevant and the two lists
are kept separate. -/
inductive ScanDoc where
  | mk (elems : List ScanElem) (frames : ScanFrames)

/-- The iframe list of a document; each frame is either accessible
(same-origin, its content document can be read) or cross-origin. -/
inductive ScanFrames where
  | nil
  | cons (accessible : Bool) (sub : ScanDoc) (rest : ScanFrames)
end

mutual
/-- `processElementsInDocument` (lines 201-373): tag this document's own
elements, then recurse into each accessible iframe passing the running counter
forward; returns (flattened elements, next counter, the document with the
stamped `data-agent-id` attributes). -/
def processDoc (d : ScanDoc) (c : Nat) : List TaggerElement × Nat × ScanDoc :=
  match d, c with
  | .mk es fs, c =>
    ((elemPass es c).1 ++ (framePass fs (elemPass es c).2.1).1,
     (framePass fs (elemPass es c).2.1).2.1,
     .mk (elemPass es c).2.2 (framePass fs (elemPass es c).2.1).2.2)
termination_by structural d

/-- The `iframes.forEach` pass (lines 324-347): accessible frames are
processed recursively with the running counter; cross-origin frames are
skipped without touching the counter or aborting. -/
def framePass (f : ScanFrames) (c : Nat) : List TaggerElement × Nat × ScanFrames :=
  match f, c with
  | .nil, c => ([], c, .nil)
  | .cons a sub rest, c =>
    if a then
      ((processDoc sub c).1 ++ (framePass rest (processDoc sub c).2.1).1,
       (framePass rest (processDoc sub c).2.1).2.1,
       .cons a (processDoc sub c).2.2 (framePass rest (processDoc sub c).2.1).2.2)
    else
      ((framePass rest c).1, (framePass rest c).2.1,
       .cons a sub (framePass rest c).2.2)
termination_by structural f
end

/-- Remove the `data-agent-id` attribute from one element. -/
def stripTag (e : ScanElem) : ScanElem := { e with agentId := none }

/-- `cleanupStaleIds` (lines 606-617): removes every `data-agent-id` from the
MAIN document only — its `document.querySelectorAll` does not reach into
iframe content documents (contrast `clearTags`, lines 555-587, which
explicitly iterates accessible iframes as well). -/
def cleanupStaleIds : ScanDoc → ScanDoc
  | .mk es fs => .mk (es.map stripTag) fs

/-- `tagInteractiveElements` (lines 28-417): always resets the id counter to 1
(line 31), clears main-document tags via `cleanupStaleIds` (line 32), then runs
`processElementsInDocument` from counter 1.  Returns (elements, the instance's
new `nextId`, the document as mutated by the stamping). -/
def tagInteractiveElements (d : ScanDoc) : List TaggerElement × Nat × ScanDoc :=
  processDoc (cleanupStaleIds d) 1

/- ============== Parameter validation (WebAgent.validateParameters) ============== -/

/-- A JavaScript value as produced by `parseModelResponse`'s parameter
extraction: a string, an integral number, or a boolean.  (The extractor only
ever produces these three shapes; fractional numbers are not modelled.) -/
inductive JSV where
  | str (s : String)
  | num (n : Int)
  | boolean (b : Bool)
deriving DecidableEq, Repr

/-- Integer-valued model of JavaScript `Number(value)` combined with
`Number.isInteger`: `some n` when the coercion yields the integer `n`,
`none` when it yields `NaN` or a non-integer.  Strings are parsed with
`String.toInt?`, an approximation of JS numeric-string coercion that agrees
with it on plain integer literals (the only numeric strings the caller's
regex `\d+` can produce) and maps every non-integer string to `none`,
exactly where `Number.isInteger` would also fail the guard. -/
def jsInt : JSV → Option Int
  | .str s => s.toInt?
  | .num n => some n
  | .boolean b => some (if b then 1 else 0)

/-- JavaScript template-string rendering `${value}` of a parameter value,
used inside error messages. -/
def jsvDisplay : JSV → String
  | .str s => s
  | .num n => toString n
  | .boolean b => cond b "true" "false"

/-- The `id` / `page_id` validator (WebAgent.ts lines 62-69): positive
integer at most 10000. -/
def validateIdParam (v : JSV) : Option JSV :=
  match jsInt v with
  | some n => if 0 < n ∧ n ≤ 10000 then some (.num n) else none
  | none => none

/-- Character class of the control-character strip regex
`[\x00-\x08\x0B\x0C\x0E-\x1F\x7F]` (lines 77, 148, 159). -/
def isStrippedCtrl (ch : Char) : Bool :=
  ch.val ≤ 0x08 || ch.val = 0x0B || ch.val = 0x0C ||
    (0x0E ≤ ch.val && ch.val ≤ 0x1F) || ch.val = 0x7F

/-- Index of the first occurrence of `pat` in `s`, if any. -/
def findSubIdx (s pat : String) : Option Nat :=
  (List.range (s.toList.length + 1)).find?
    (fun i => pat.toList.isPrefixOf (s.toList.drop i))

/-- Approximate model of the script-tag removal regex
`/<script\b[^<]*(?:(?!<\/script>)<[^<]*)*<\/script>/gi` (line 78): repeatedly
removes a case-insensitive `<script ... </script>` span.  The regex's inner
structure (the `[^<]*` runs) is not reproduced; no claim depends on this
sanitizer beyond it being some string-to-string cleanup. -/
def stripScriptTags (fuel : Nat) (s : String) : String :=
  match fuel with
  | 0 => s
  | fuel + 1 =>
    match findSubIdx (jsToLower s) "<script" with
    | none => s
    | some i =>
      match findSubIdx (String.mk ((jsToLower s).toList.drop i)) "</script>" with
      | none => s
      | some j =>
        stripScriptTags fuel
          (String.mk (s.toList.take i ++ s.toList.drop (i + j + 9)))

/-- The `text` validator (lines 72-82): strip control characters and script
tags, cap at 1000 characters, reject if empty. -/
def validateTextParam (v : JSV) : Option JSV :=
  match v with
  | .str s =>
    let sanitized :=
      String.mk ((stripScriptTags s.toList.length
        (String.mk (s.toList.filter (fun ch => !isStrippedCtrl ch)))).toList.take 1000)
    if sanitized.toList.length > 0 then some (.str sanitized) else none
  | _ => none

/-- The normalized-URL record produced by the model of the WHATWG `URL`
constructor: `protocol` includes the trailing colon and is lowercased,
`hostname` is lowercased, `port` is `""` when absent, `rest` is the raw
path-query-fragment tail. -/
structure URLRec where
  protocol : String
  hostname : String
  port : String
  rest : String
deriving DecidableEq, Repr

/-- Schemes for which the WHATWG URL parser requires a non-empty host. -/
def isSpecialScheme (s : String) : Bool :=
  s = "http" || s = "https" || s = "ws" || s = "wss" || s = "ftp" || s = "file"

/-- Valid scheme characters after the leading letter. -/
def isSchemeChar (c : Char) : Bool :=
  c.isAlphanum || c = '+' || c = '-' || c = '.'

/-- Model of the host environment's `new URL(value)` constructor, covering the
fragment of WHATWG URL parsing this code path exercises: mandatory scheme,
`//`-authority with optional userinfo and port, lowercased hostname, opaque
(hostless) paths for non-authority URLs, and failure (`none`) where the
constructor throws — no scheme, or an empty host under a special scheme.
IPv6 host brackets and percent-decoding are outside the model. -/
def parseURL (s : String) : Option URLRec :=
  let cs := s.toList
  let scheme := cs.takeWhile (fun c => c ≠ ':')
  match cs.drop scheme.length with
  | ':' :: afterColon =>
    if scheme ≠ [] ∧ (scheme.headD 'a').isAlpha ∧ scheme.all isSchemeChar then
      let schemeL := jsToLower (String.mk scheme)
      match afterColon with
      | '/' :: '/' :: afterSlashes =>
        let authority := afterSlashes.takeWhile
          (fun c => c ≠ '/' ∧ c ≠ '?' ∧ c ≠ '#')
        let tail := afterSlashes.drop authority.length
        let hostport :=
          if authority.contains '@'
          then (authority.reverse.takeWhile (fun c => c ≠ '@')).reverse
          else authority
        let host := hostport.takeWhile (fun c => c ≠ ':')
        let port := hostport.drop (host.length + 1)
        let hostStr := jsToLower (String.mk host)
        if isSpecialScheme schemeL ∧ hostStr = "" then none
        else some { protocol := schemeL ++ ":", hostname := hostStr,
                    port := String.mk port, rest := String.mk tail }
      | _ =>
        some { protocol := schemeL ++ ":", hostname := "", port := "",
               rest := String.mk afterColon }
    else none
  | _ => none

/-- `url.toString()` for the model: protocol, host, optional port, and the
tail (normalized to "/" when empty, as the WHATWG serializer does for
special schemes). -/
def urlToString (u : URLRec) : String :=
  u.protocol ++ "//" ++ u.hostname ++
    (if u.port = "" then "" else ":" ++ u.port) ++
    (if u.rest = "" then "/" else u.rest)

/-- The `url` validator (lines 85-107): must parse, scheme restricted to
http/https, and the lowercased hostname must not be `localhost`, start with
`127.` / `192.168.` / `10.`, or end with `.local`. -/
def validateUrlParam (v : JSV) : Option JSV :=
  match v with
  | .str s =>
    match parseURL s with
    | none => none
    | some u =>
      if !(u.protocol = "http:" || u.protocol = "https:") then none
      else
        let hostname := jsToLower u.hostname
        if hostname = "localhost" || strStartsWith hostname "127." ||
            strStartsWith hostname "192.168." || strStartsWith hostname "10." ||
            strEndsWith hostname ".local" then none
        else some (.str (urlToString u))
  | _ => none

/-- The `direction` validator (lines 110-113): exactly "up" or "down". -/
def validateDirectionParam (v : JSV) : Option JSV :=
  match v with
  | .str s => if s = "up" ∨ s = "down" then some (.str s) else none
  | _ => none

/-- The `duration` validator (lines 116-119): integer in [0, 60000]. -/
def validateDurationParam (v : JSV) : Option JSV :=
  match jsInt v with
  | some n => if 0 ≤ n ∧ n ≤ 60000 then some (.num n) else none
  | none => none

/-- The `new_tab` / `is_critical` validators (lines 122-124, 200-202):
must literally be a boolean. -/
def validateBooleanParam (v : JSV) : Option JSV :=
  match v with
  | .boolean b => some (.boolean b)
  | _ => none

/-- The `filename` validator (lines 127-141): replace unsafe characters by
`_`, cap at 50 characters, and append `.png` unless an allowed image
extension is already present (case-insensitively). -/
def validateFilenameParam (v : JSV) : Option JSV :=
  match v with
  | .str s =>
    let sanitized := String.mk ((s.toList.map (fun ch =>
      if ch.isAlphanum || ch = '.' || ch = '_' || ch = '-' then ch else '_')).take 50)
    let lower := jsToLower sanitized
    if strEndsWith lower ".png" || strEndsWith lower ".jpg" ||
        strEndsWith lower ".jpeg" || strEndsWith lower ".bmp" ||
        strEndsWith lower ".gif"
    then some (.str sanitized)
    else some (.str (sanitized ++ ".png"))
  | _ => none

/-- The `summary` validator (lines 144-152): strip control characters, cap at
200, reject if empty. -/
def validateSummaryParam (v : JSV) : Option JSV :=
  match v with
  | .str s =>
    let sanitized := String.mk ((s.toList.filter (fun ch => !isStrippedCtrl ch)).take 200)
    if sanitized.toList.length > 0 then some (.str sanitized) else none
  | _ => none

/-- The `reason` validator (lines 155-163): strip control characters, cap at
500, reject if empty. -/
def validateReasonParam (v : JSV) : Option JSV :=
  match v with
  | .str s =>
    let sanitized := String.mk ((s.toList.filter (fun ch => !isStrippedCtrl ch)).take 500)
    if sanitized.toList.length > 0 then some (.str sanitized) else none
  | _ => none

/-- Characters admitted by the selector allowlist regex
`/^[a-zA-Z0-9_\-\s.#\[\]="'():>*+,]+$/` (line 192). -/
def isSelectorChar (c : Char) : Bool :=
  c.isAlphanum || c = '_' || c = '-' || c.isWhitespace || c = '.' || c = '#' ||
    c = '[' || c = ']' || c = '=' || c = '"' || c = '\x27' || c = '(' ||
    c = ')' || c = ':' || c = '>' || c = '*' || c = '+' || c = ','

/-- Test for the `\\[0-9a-fA-F]{1,6}` unicode-escape pattern of the selector
denylist. -/
def hasUnicodeEscape (s : String) : Bool :=
  s.toList.tails.any (fun t =>
    match t with
    | '\\' :: d :: _ => d.isDigit || ('a' ≤ d ∧ d ≤ 'f') || ('A' ≤ d ∧ d ≤ 'F')
    | _ => false)

/-- The `selector` validator (lines 166-197): reject dangerous patterns
(schemes, CSS expressions, comments, unicode escapes — matched
case-insensitively where the source regexes carry the `i` flag), then require
length at most 200 and the conservative character allowlist. -/
def validateSelectorParam (v : JSV) : Option JSV :=
  match v with
  | .str s =>
    let sanitized := jsTrim s
    let lower := jsToLower sanitized
    if strContains lower "javascript:" || strContains lower "data:" ||
        strContains lower "vbscript:" || strContains lower "expression(" ||
        strContains lower "@import" || strContains lower "behavior:" ||
        strContains lower "binding:" || strContains sanitized "<!--" ||
        strContains sanitized "-->" || hasUnicodeEscape sanitized
    then none
    else if sanitized.toList.length ≤ 200 ∧ sanitized.toList ≠ [] ∧
        sanitized.toList.all isSelectorChar
    then some (.str sanitized)
    else none
  | _ => none

/-- The validator table `validationRules` (lines 60-203): the closed set of
recognized parameter keys, each mapped to its validator; `none` for an
unregistered key. -/
def validatorFor (key : String) : Option (JSV → Option JSV) :=
  if key = "id" then some validateIdParam
  else if key = "page_id" then some validateIdParam
  else if key = "text" then some validateTextParam
  else if key = "url" then some validateUrlParam
  else if key = "direction" then some validateDirectionParam
  else if key = "duration" then some validateDurationParam
  else if key = "new_tab" then some validateBooleanParam
  else if key = "filename" then some validateFilenameParam
  else if key = "summary" then some validateSummaryParam
  else if key = "reason" then some validateReasonParam
  else if key = "selector" then some validateSelectorParam
  else if key = "is_critical" then some validateBooleanParam
  else none

/-- Whether a parameter key has a registered validator. -/
def recognizedKey (key : String) : Bool :=
  (validatorFor key).isSome

/-- The per-parameter loop of `validateParameters` (lines 206-222): walk the
entries in order; throw `Unknown parameter` at the first key without a
validator, throw `Invalid parameter` at the first value a validator maps to
null, otherwise collect the sanitized values. -/
def validateParamsList : List (String × JSV) → Except String (List (String × JSV))
  | [] => .ok []
  | (k, v) :: rest =>
    match validatorFor k with
    | none => .error ("Unknown parameter: " ++ k)
    | some f =>
      match f v with
      | none => .error ("Invalid parameter " ++ k ++ " with value: " ++ jsvDisplay v)
      | some v' =>
        match validateParamsList rest with
        | .error e => .error e
        | .ok l => .ok ((k, v') :: l)

/-- The `requiredParams` table (lines 225-235) with the `|| []` default of
line 237. -/
def requiredParams (action : String) : List String :=
  if action = "click_element" then ["id"]
  else if action = "type_text" then ["id", "text"]
  else if action = "navigate_to" then ["url"]
  else if action = "wait" then []
  else if action = "scroll_page" then ["direction"]
  else if action = "switch_to_page" then []
  else if action = "screenshot" then []
  else if action = "request_user_assistance" then ["reason"]
  else if action = "goal_achieved" then ["summary"]
  else []

/-- `WebAgent.validateParameters` (lines 56-245): validate every entry of the
parameter bag against the closed validator table, then check the action's
required-parameter list; any failure rejects the whole request. -/
def validateParameters (action : String) (params : List (String × JSV)) :
    Except String (List (String × JSV)) :=
  match validateParamsList params with
  | .error e => .error e
  | .ok validated =>
    match (requiredParams action).find? (fun p => !validated.any (fun kv => kv.1 = p)) with
    | some p => .error ("Required parameter missing: " ++ p ++ " for action " ++ action)
    | none => .ok validated

/- ============== typeText role gating (PageActions.typeText) ============== -/

/-- The fields of a `TaggerElement` that `typeText`'s validation reads:
semantic role and optional input subtype. -/
structure ElemDetails where
  role : String
  input_type : Option String
deriving DecidableEq, Repr

/-- `supportedRoles` of PageActions.ts line 685. -/
def supportedRoles : List String := ["input", "textarea"]

/-- `unsupportedInputTypes` of PageActions.ts line 693. -/
def unsupportedInputTypes : List String :=
  ["button", "submit", "reset", "image", "file", "checkbox", "radio"]

/-- The role/subtype validation of `typeText` (PageActions.ts lines 684-696):
reject non-text-entry roles with an error directing to `click_element`;
reject truthy input subtypes from the non-text list likewise; otherwise pass.
(The JS guard `elementDetails.input_type && ...` makes an empty-string
subtype fall through to success, which the `none`/`some ""` cases mirror.) -/
def typeTextValidation (elementId : Nat) (el : ElemDetails) : Except String Unit :=
  if !(supportedRoles.contains el.role) then
    .error ("Cannot type text into element " ++ toString elementId ++
      ": elements with role \x27" ++ el.role ++
      "\x27 do not support text input. Supported roles: input, textarea. " ++
      "Use click_element for buttons or find the associated input field.")
  else
    match el.input_type with
    | some t =>
      if t ≠ "" ∧ unsupportedInputTypes.contains t then
        .error ("Element " ++ toString elementId ++ " has input_type \"" ++ t ++
          "\" which doesn\x27t support text input. Use click_element instead of type_text.")
      else .ok ()
    | none => .ok ()

/- ============== Risk evaluation (RiskEvaluator.ts) ============== -/

/-- The `RiskAssessment` interface: tier string (`"LOW"`/`"MEDIUM"`/`"HIGH"`,
kept as a string because `parseRiskAssessment` validates it as one),
free-text reasoning, and the confirmation flag. -/
structure RiskAssessment where
  risk_level : String
  reasoning : String
  requires_confirmation : Bool
deriving DecidableEq, Repr

/-- JavaScript truthiness `Boolean(x)` for the modelled value shapes. -/
def jsTruthy : JSV → Bool
  | .str s => s ≠ ""
  | .num n => n ≠ 0
  | .boolean b => b

/-- The JSON object extracted by `parseRiskAssessment` from the classifier's
text, field by field as the JS code reads it: each field is `none` when
absent.  `requires_confirmation` keeps its raw JSON value because the code
applies `Boolean(...)` to it. -/
structure ParsedRiskJson where
  risk_level : Option String
  reasoning : Option String
  requires_confirmation : Option JSV
deriving DecidableEq, Repr

/-- The classifier's response content as `parseRiskAssessment` sees it:
no `{...}` match, a JSON.parse failure, or a parsed object. -/
inductive ClassifierText where
  | noJson
  | badJson (parseErr : String)
  | json (p : ParsedRiskJson)
deriving DecidableEq, Repr

/-- `validRiskLevels` of RiskEvaluator.ts line 143. -/
def validRiskLevels : List String := ["LOW", "MEDIUM", "HIGH"]

/-- The catch-all result of `parseRiskAssessment`'s catch block
(lines 153-162): HIGH risk, confirmation required. -/
def parseFailAssessment (msg : String) : RiskAssessment :=
  { risk_level := "HIGH",
    reasoning := "Failed to parse risk assessment: " ++ msg,
    requires_confirmation := true }

/-- `parseRiskAssessment` (lines 125-163): extract and validate the JSON
(`!parsed.risk_level` and `!parsed.reasoning` treat absent and empty-string
fields alike, mirrored by `getD ""`), check the tier against
`validRiskLevels`, and fall back to the HIGH/confirm default on any failure. -/
def parseRiskAssessment : ClassifierText → RiskAssessment
  | .noJson => parseFailAssessment "No JSON found in response"
  | .badJson e => parseFailAssessment e
  | .json p =>
    if p.risk_level.getD "" = "" || p.reasoning.getD "" = "" ||
        p.requires_confirmation.isNone then
      parseFailAssessment "Invalid risk assessment format"
    else if !(validRiskLevels.contains (p.risk_level.getD "")) then
      parseFailAssessment ("Invalid risk level: " ++ p.risk_level.getD "")
    else
      { risk_level := p.risk_level.getD "",
        reasoning := p.reasoning.getD "",
        requires_confirmation := jsTruthy (p.requires_confirmation.getD (.boolean false)) }

/-- `RiskEvaluator.evaluateRisk` (lines 21-62).  `enabled` is the instance's
`this.enabled` flag (from `config.enableRiskEvaluation`); `call` is the
outcome of the `anthropic.messages.create` classifier call — `Except.error`
when the call throws (network or API failure), `Except.ok` with the response
content otherwise.  Disabled evaluation returns LOW without consulting
`call`; a thrown call lands in the catch block's conservative HIGH. -/
def evaluateRisk (enabled : Bool) (call : Except String ClassifierText) :
    RiskAssessment :=
  if !enabled then
    { risk_level := "LOW", reasoning := "Risk evaluation is disabled",
      requires_confirmation := false }
  else
    match call with
    | .error e =>
      { risk_level := "HIGH", reasoning := "Risk evaluation failed: " ++ e,
        requires_confirmation := true }
    | .ok t => parseRiskAssessment t

/- ============== Security hard-block and executeAction (RiskEvaluator.ts, WebAgent.ts) ============== -/

/-- An `Action` of the agent: tool name and flat parameter bag.  (Named
`AgentAction` because Mathlib already owns the root name `Action`.) -/
structure AgentAction where
  tool : String
  parameters : List (String × JSV)
deriving DecidableEq, Repr

/-- A `SecurityContext` (types.ts): the action under evaluation, the current
URL, and the optional target-element details fetched for it. -/
structure SecurityContext where
  action : AgentAction
  current_url : String
  target_element : Option ElemDetails

/-- The denylisted tool-name fragments of `shouldBlockAction`
(RiskEvaluator.ts lines 317-323). -/
def blocklist : List String :=
  ["eval", "execute", "download_file", "install_extension", "modify_settings"]

/-- The denylisted parameter patterns of `shouldBlockAction` (lines 332-338). -/
def blockedParamPatterns : List String :=
  ["javascript:", "data:", "vbscript:", "file://", "ftp://"]

/-- One JSON value rendered by `JSON.stringify`. -/
def jsonVal : JSV → String
  | .str s => "\"" ++ s ++ "\""
  | .num n => toString n
  | .boolean b => cond b "true" "false"

/-- Model of `JSON.stringify(action.parameters)` for a flat bag (escaping of
special characters inside strings is not reproduced; the denylist patterns
contain no such characters). -/
def jsonStringifyParams (ps : List (String × JSV)) : String :=
  "\x7b" ++ String.intercalate ","
    (ps.map (fun kv => "\"" ++ kv.1 ++ "\":" ++ jsonVal kv.2)) ++ "\x7d"

/-- `RiskEvaluator.shouldBlockAction` (lines 316-341): block when the tool
name contains a denylisted fragment, or when the lowercased serialized
parameters contain a denylisted scheme pattern.  The `context` argument is
accepted and ignored, as in the source. -/
def shouldBlockAction (action : AgentAction) (_context : SecurityContext) : Bool :=
  blocklist.any (fun blocked => strContains action.tool blocked) ||
    (let suspiciousParams := jsToLower (jsonStringifyParams action.parameters)
     blockedParamPatterns.any (fun pat => strContains suspiciousParams pat))

/-- The tool names `executeAction`'s switch statement recognizes
(WebAgent.ts lines 489-556). -/
def knownTools : List String :=
  ["click_element", "type_text", "navigate_to", "scroll_page",
   "switch_to_page", "wait", "request_user_assistance", "screenshot",
   "goal_achieved"]

/-- Observable steps of one `executeAction` run, in order: the browser reads
of `buildSecurityContext`, the risk-classifier API call inside
`evaluateRisk`, the user-confirmation request, and the side-effecting
browser operation of the switch statement. -/
inductive ExecEvent where
  | contextRead
  | classifierCall
  | confirmRequest
  | browserOp (tool : String)
deriving DecidableEq, Repr

/-- The collaborators `executeAction` consults, fixed for one run: whether
risk evaluation is enabled, the outcome of the classifier call were it made,
whether the user would grant a confirmation request, and the target-element
details `buildSecurityContext` would fetch. -/
structure ExecEnv where
  riskEnabled : Bool
  classifierResult : Except String ClassifierText
  confirmGranted : Bool
  targetElement : Option ElemDetails

/-- The switch statement of `executeAction` (WebAgent.ts lines 489-556),
abstracted to the single `browserOp` event for recognized tools plus the
default case's `Unknown action tool` throw; the per-tool internals are
beyond this model. -/
def executeSwitch (action : AgentAction) (trace : List ExecEvent) :
    Except String Unit × List ExecEvent :=
  if knownTools.contains action.tool then
    (.ok (), trace ++ [ExecEvent.browserOp action.tool])
  else (.error ("Unknown action tool: " ++ action.tool), trace)

/-- The part of `executeAction` after parameter validation passes
(WebAgent.ts lines 454-557): build the security context, consult
`shouldBlockAction` and throw `Action blocked by security policy` on a hit,
evaluate risk (the classifier is only called when the evaluator is
enabled), gate HIGH-risk confirmable actions on user confirmation, then run
the switch. -/
def executeActionChecked (env : ExecEnv) (currentUrl : String)
    (action : AgentAction) : Except String Unit × List ExecEvent :=
  let ctx : SecurityContext :=
    { action := action, current_url := currentUrl,
      target_element := env.targetElement }
  let ev0 := [ExecEvent.contextRead]
  if shouldBlockAction action ctx then
    (.error ("Action blocked by security policy: " ++ action.tool), ev0)
  else
    let assessment := evaluateRisk env.riskEnabled env.classifierResult
    let ev1 := ev0 ++ (if env.riskEnabled then [ExecEvent.classifierCall] else [])
    if assessment.requires_confirmation ∧ assessment.risk_level = "HIGH" then
      let ev2 := ev1 ++ [ExecEvent.confirmRequest]
      if env.confirmGranted then executeSwitch action ev2
      else (.error "User denied high-risk action execution", ev2)
    else executeSwitch action ev1

/-- Dispatch on the outcome of the re-validation at the top of
`executeAction` (WebAgent.ts line 452): a validation throw aborts before
any of the later stages. -/
def executeActionValidated :
    Except String (List (String × JSV)) → ExecEnv → String → AgentAction →
      Except String Unit × List ExecEvent
  | .error e, _, _, _ => (.error e, [])
  | .ok _, env, url, action => executeActionChecked env url action

/-- `WebAgent.executeAction` (lines 446-567) as a function from the current
page id, environment, current URL and action to (outcome, ordered event
trace): guard the active page, re-validate parameters, then run the
checked pipeline. -/
def executeAction : Option Nat → ExecEnv → String → AgentAction →
    Except String Unit × List ExecEvent
  | none, _, _, _ => (.error "No active page", [])
  | some _, env, url, action =>
    executeActionValidated (validateParameters action.tool action.parameters)
      env url action

/- ============== Tab registry (BrowserManager.ts) ============== -/

/-- An opaque Playwright page handle; reference identity (`===`) becomes
equality of the underlying token. -/
abbrev PageHandle := Nat

/-- The mutable state of `BrowserManager`: the insertion-ordered id-to-page
map, the id counter, and the active/last-activated tracking. -/
structure BrowserState where
  pages : List (Nat × PageHandle)
  nextPageId : Nat
  activePageId : Option Nat
  lastActivatedPageId : Option Nat
deriving DecidableEq, Repr

/-- `BrowserManager.registerPage` (lines 425-479): scan the existing
registrations first and return the existing id for an already-registered
handle without touching any state; otherwise allocate `nextPageId`,
increment the counter and append the entry.  (The event-listener setup of
lines 440-478 has no effect on the registry state unless Playwright throws,
which the model's handles cannot.) -/
def registerPage (st : BrowserState) (page : PageHandle) : Nat × BrowserState :=
  match st.pages.find? (fun kv => kv.2 = page) with
  | some kv => (kv.1, st)
  | none =>
    (st.nextPageId,
     { st with pages := st.pages ++ [(st.nextPageId, page)],
               nextPageId := st.nextPageId + 1 })

/-- `BrowserManager.getTabCount` (lines 855-857): the live tab count. -/
def getTabCount (st : BrowserState) : Nat :=
  st.pages.length

/- ============== Screenshot path sanitization (BrowserManager.ts) ============== -/

/-- The filesystem facts `sanitizeFilePath` consults: the working directory
(`process.cwd()`, an absolute path without trailing slash) and directory
existence (`fs.existsSync`). -/
structure FsEnv where
  cwd : String
  dirExists : String → Bool

/-- One step of POSIX path normalization over segments (accumulator kept
reversed): drop empty and `.` segments, let `..` pop. -/
def normStep (acc : List (List Char)) (seg : List Char) : List (List Char) :=
  if seg = [] ∨ seg = ['.'] then acc
  else if seg = ['.', '.'] then acc.drop 1
  else seg :: acc

/-- Model of Node's `path.resolve(p)` against a working directory: absolute
paths are normalized as-is, relative ones against `cwd`; the result has no
trailing slash and no `.`/`..` segments. -/
def resolvePath (cwd p : String) : String :=
  let base := if strStartsWith p "/" then p else cwd ++ "/" ++ p
  let segs := ((splitCharList '/' base.toList).foldl normStep []).reverse
  "/" ++ String.intercalate "/" (segs.map String.mk)

/-- Model of Node's `path.dirname` for a resolved absolute path. -/
def dirnamePath (p : String) : String :=
  let segs := (splitCharList '/' p.toList).filter (fun s => s ≠ [])
  if segs.dropLast = [] then "/"
  else "/" ++ String.intercalate "/" (segs.dropLast.map String.mk)

/-- Model of Node's `path.extname` for a resolved absolute path: the suffix
of the last segment from its final dot, empty for dotless or dotfile
names. -/
def extnamePath (p : String) : String :=
  let base := (splitCharList '/' p.toList).getLastD []
  let afterDot := base.reverse.takeWhile (fun c => c ≠ '.')
  if afterDot.length = base.length then ""
  else if base.length - afterDot.length - 1 = 0 then ""
  else "." ++ String.mk afterDot.reverse

/-- `validExtensions` of BrowserManager.ts line 888. -/
def validExtensions : List String := [".png", ".jpg", ".jpeg", ".bmp", ".gif"]

/-- `BrowserManager.sanitizeFilePath` (lines 862-900): resolve the path,
require the result to be a string-prefix extension of the working directory,
require the containing directory to exist, and reject a non-empty extension
outside the image allowlist — note the guard `if (ext && ...)` lets an
extensionless path through. -/
def sanitizeFilePath (env : FsEnv) (path : String) : Option String :=
  if !(strStartsWith (resolvePath env.cwd path) env.cwd) then none
  else if !(env.dirExists (dirnamePath (resolvePath env.cwd path))) then none
  else if jsToLower (extnamePath (resolvePath env.cwd path)) ≠ "" ∧
      !(validExtensions.contains (jsToLower (extnamePath (resolvePath env.cwd path)))) then
    none
  else some (resolvePath env.cwd path)

/-- The write-or-throw step of `takeScreenshot` on `sanitizeFilePath`'s
verdict (BrowserManager.ts lines 786-793): rejection throws instead of
writing. -/
def screenshotWriteSanitized : Option String → Except String (Option String)
  | none => .error "Invalid file path for screenshot: path traversal detected"
  | some sanitizedPath => .ok (some sanitizedPath)

/-- The `if (path)` body of `takeScreenshot`: no requested path writes
nothing; a requested path is written at its sanitized form only. -/
def screenshotWrite (env : FsEnv) : Option String → Except String (Option String)
  | none => .ok none
  | some p => screenshotWriteSanitized (sanitizeFilePath env p)

/-- `BrowserManager.takeScreenshot` (lines 773-801), restricted to its file-
output behavior: unknown page throws; otherwise the write step runs.
`.ok r` carries the path written, `none` for no write. -/
def takeScreenshot (env : FsEnv) (pageExists : Bool) (path : Option String) :
    Except String (Option String) :=
  if !pageExists then .error "Page not found"
  else screenshotWrite env path

/- ============== Concrete documents used by the tagger claims ============== -/

/-- The own elements of a document. -/
def docElems : ScanDoc → List ScanElem
  | .mk es _ => es

/-- The iframe list of a document. -/
def docFrames : ScanDoc → ScanFrames
  | .mk _ fs => fs

/-- One level of an iframe list: each frame's accessibility flag paired with
its content document's own elements. -/
def framesTop : ScanFrames → List (Bool × List ScanElem)
  | .nil => []
  | .cons a sub rest => (a, docElems sub) :: framesTop rest

/-- A visible untagged button with text "A". -/
def buttonA : ScanElem :=
  { tagName := "button", roleAttr := "", text := "A", visible := true, agentId := none }

/-- A visible untagged button with text "B". -/
def buttonB : ScanElem :=
  { tagName := "button", roleAttr := "", text := "B", visible := true, agentId := none }

/-- A visible untagged button with text "C". -/
def buttonC : ScanElem :=
  { tagName := "button", roleAttr := "", text := "C", visible := true, agentId := none }

/-- A frameless document holding buttons A and B. -/
def docAB : ScanDoc := .mk [buttonA, buttonB] .nil

/-- `docAB` after one scan with button A then removed from the DOM (the same
loaded document, mutated but not reloaded): B still carries the stamped
`data-agent-id` 2. -/
def docBAfterRemoval : ScanDoc :=
  .mk [{ buttonB with agentId := some 2 }] .nil

/-- A document with button A in the main document and button C inside one
accessible same-origin iframe. -/
def docMainFrame : ScanDoc :=
  .mk [buttonA] (.cons true (.mk [buttonC] .nil) .nil)

/-- `docMainFrame` after one scan (A stamped 1, C stamped 2) with a new
untagged button B then inserted into the main document — the same loaded
document, mutated but not reloaded. -/
def docMainFrameGrown : ScanDoc :=
  .mk [{ buttonA with agentId := some 1 }, buttonB]
    (.cons true (.mk [{ buttonC with agentId := some 2 }] .nil) .nil)

/-- The classifier-failure cases enumerated by the fail-closed claim: the API
call throws, the response holds no JSON or malformed JSON, a required field
is absent (or empty, which `!parsed.x` treats the same), or the tier value
is not a valid risk level. -/
def classifierFailed : Except String ClassifierText → Bool
  | .error _ => true
  | .ok .noJson => true
  | .ok (.badJson _) => true
  | .ok (.json p) =>
    p.risk_level.getD "" = "" || p.reasoning.getD "" = "" ||
      p.requires_confirmation.isNone ||
      !(validRiskLevels.contains (p.risk_level.getD ""))

/-- A `navigate_to` action whose `url` parameter carries the denylisted
`file://` scheme. -/
def blockedNavAction : AgentAction :=
  { tool := "navigate_to", parameters := [("url", .str "file:///etc/passwd")] }

/-- An arbitrary concrete execution environment. -/
def anyExecEnv : ExecEnv :=
  { riskEnabled := true, classifierResult := .error "network error",
    confirmGranted := false, targetElement := none }

/-- A concrete filesystem for the screenshot claims: working directory
`/work`, with `/work` itself and its sibling directory `/workevil` (whose
name extends the string "/work") existing. -/
def screenshotFs : FsEnv :=
  { cwd := "/work", dirExists := fun d => d = "/work" || d = "/workevil" }

/- ===================================================================== -/
/- Theorems                                                              -/
/- ===================================================================== -/

/-- Re-running `elemStep` on the element it produced reproduces the same
output record and element, and leaves the new counter untouched. -/
theorem elemStep_restep (e : ScanElem) (c c' : Nat) :
    elemStep (elemStep e c).2.1 c' = ((elemStep e c).1, (elemStep e c).2.1, c') := by
  by_cases hk : keepElem e
  · cases h : e.agentId with
    | none =>
      have hk' : keepElem { e with agentId := some c } = keepElem e := rfl
      simp [elemStep, hk, h, hk']
      rfl
    | some i => simp [elemStep, hk, h]
  · simp [elemStep, hk]

/-- Re-running the element pass on its own output reproduces the same
records and elements and passes the counter through unchanged (every kept
element is already stamped). -/
theorem elemPass_restep (es : List ScanElem) :
    ∀ c c', elemPass (elemPass es c).2.2 c' = ((elemPass es c).1, c', (elemPass es c).2.2) := by
  induction es with
  | nil => exact fun c c' => rfl
  | cons e rest ih =>
    intro c c'
    simp only [elemPass, elemStep_restep, ih]

/-- Stamping never changes what tag-stripping produces. -/
theorem stripTag_elemStep (e : ScanElem) (c : Nat) :
    stripTag (elemStep e c).2.1 = stripTag e := by
  by_cases hk : keepElem e
  · cases h : e.agentId with
    | none => simp [elemStep, hk, h, stripTag]
    | some i => simp [elemStep, hk, h]
  · simp [elemStep, hk]

/-- Tag-stripping after the element pass equals tag-stripping before it. -/
theorem elemPass_strip (es : List ScanElem) :
    ∀ c, (elemPass es c).2.2.map stripTag = es.map stripTag := by
  induction es with
  | nil => intro c; rfl
  | cons e rest ih => intro c; simp only [elemPass, List.map, stripTag_elemStep, ih]

mutual
/-- Re-processing an already-processed document reproduces the same output
records and document and passes the counter through unchanged. -/
theorem processDoc_restep : ∀ (d : ScanDoc) (c c' : Nat),
    processDoc (processDoc d c).2.2 c' = ((processDoc d c).1, c', (processDoc d c).2.2)
  | .mk es fs, c, c' => by
    simp only [processDoc, elemPass_restep,
      framePass_restep fs (elemPass es c).2.1 c']

/-- Re-processing an already-processed iframe list reproduces the same
output records and frames and passes the counter through unchanged. -/
theorem framePass_restep : ∀ (f : ScanFrames) (c c' : Nat),
    framePass (framePass f c).2.2 c' = ((framePass f c).1, c', (framePass f c).2.2)
  | .nil, c, c' => rfl
  | .cons a sub rest, c, c' => by
    cases a with
    | true =>
      simp only [framePass, if_true,
        processDoc_restep sub c c',
        framePass_restep rest (processDoc sub c).2.1 c']
    | false =>
      simp only [framePass, Bool.false_eq_true, if_false, framePass_restep rest c c']
end

/-- Tag-stripping is idempotent. -/
theorem stripTag_stripTag (e : ScanElem) : stripTag (stripTag e) = stripTag e := rfl

/-- C1 (amended).  Identity stability for an UNCHANGED document: scanning the
document exactly as the previous `tagInteractiveElements` call left it
returns the identical element list, so every element present in both scans
gets the same identifier.  (The original claim's stronger mechanism — prior
identifiers survive arbitrary DOM mutation of the same loaded document, with
numbering restarting at 1 only on reload — fails on the code: the scanner
clears main-document tags and restarts numbering at 1 on every call; see the
counterexample.) -/
theorem scan_identity_stable_for_unchanged_document (d : ScanDoc) :
    (tagInteractiveElements (tagInteractiveElements d).2.2).1 =
      (tagInteractiveElements d).1 := by
  cases d with
  | mk es fs =>
    simp only [tagInteractiveElements, cleanupStaleIds, processDoc]
    have hstrip : ((elemPass (es.map stripTag) 1).2.2).map stripTag = es.map stripTag := by
      rw [elemPass_strip, List.map_map]
      simp [Function.comp, stripTag_stripTag]
    rw [hstrip, framePass_restep]

/-- C1 (counterexample).  A document with buttons A and B is scanned (A↦1,
B↦2, both stamped); then A is removed from the DOM — the same loaded
document, never reloaded, with B still carrying its stamped id 2
(`docBAfterRemoval` is exactly the post-scan document minus A).  The next
scan returns id 1 for B: an element present in two consecutive scans of the
same loaded document did NOT keep its identifier, because every scan clears
main-document tags and restarts numbering at 1. -/
theorem scan_after_element_removal_renumbers :
    (tagInteractiveElements docAB).1 =
      [⟨1, "button", "A"⟩, ⟨2, "button", "B"⟩] ∧
    docElems (tagInteractiveElements docAB).2.2 =
      [{ buttonA with agentId := some 1 }, { buttonB with agentId := some 2 }] ∧
    (tagInteractiveElements docBAfterRemoval).1 = [⟨1, "button", "B"⟩] := by
  refine ⟨?_, ?_, ?_⟩ <;>
    · simp only [tagInteractiveElements, cleanupStaleIds, docAB, docBAfterRemoval,
        buttonA, buttonB, List.map, processDoc, framePass, docElems]
      decide

/-- C2 (code bug).  A document has button A in the main document and button C
in an accessible iframe; the first scan correctly returns distinct ids
[1, 2] and stamps them.  A new button B is then inserted into the main
document (`docMainFrameGrown` is exactly the post-scan document plus B).
The next scan returns ids [1, 2, 2] — a duplicate — because
`cleanupStaleIds` strips `data-agent-id` attributes from the main document
only, so the frame's stale tag 2 survives while main-document numbering
restarts and reassigns 2; identifier uniqueness across main document and
frames is violated within a single scan.  (`clearTags` shows the intended
frame-aware cleanup, but `tagInteractiveElements` does not call it.) -/
theorem scan_duplicate_ids_with_stale_frame_tag :
    (tagInteractiveElements docMainFrame).1.map TaggerElement.id = [1, 2] ∧
    docElems (tagInteractiveElements docMainFrame).2.2 =
      [{ buttonA with agentId := some 1 }] ∧
    framesTop (docFrames (tagInteractiveElements docMainFrame).2.2) =
      [(true, [{ buttonC with agentId := some 2 }])] ∧
    (tagInteractiveElements docMainFrameGrown).1.map TaggerElement.id = [1, 2, 2] ∧
    ¬ ((tagInteractiveElements docMainFrameGrown).1.map TaggerElement.id).Nodup := by
  refine ⟨?_, ?_, ?_, ?_, ?_⟩ <;>
    · simp only [tagInteractiveElements, cleanupStaleIds, docMainFrame, docMainFrameGrown,
        buttonA, buttonB, buttonC, List.map, processDoc, framePass, docElems, docFrames,
        framesTop]
      decide

/-- An unrecognized key anywhere in the bag makes the per-parameter loop
fail: either an earlier entry already fails its validator, or the loop
reaches the key and throws `Unknown parameter`. -/
theorem validateParamsList_unknown_key (k : String) (v : JSV) :
    ∀ (params : List (String × JSV)), (k, v) ∈ params → recognizedKey k = false →
      (validateParamsList params).isOk = false := by
  intro params
  induction params with
  | nil => intro h; exact absurd h (List.not_mem_nil _)
  | cons kv rest ih =>
    intro hmem hk
    rcases List.mem_cons.mp hmem with heq | htail
    · have hnone : validatorFor k = none := by
        have := hk
        unfold recognizedKey at this
        exact Option.not_isSome_iff_eq_none.mp (by simp [this])
      rw [← heq] at *
      simp [validateParamsList, hnone, Except.isOk, Except.toBool]
    · rcases kv with ⟨k', v'⟩
      cases hval : validatorFor k' with
      | none => simp [validateParamsList, hval, Except.isOk, Except.toBool]
      | some f =>
        cases hfv : f v' with
        | none => simp [validateParamsList, hval, hfv, Except.isOk, Except.toBool]
        | some v'' =>
          have hrest := ih htail hk
          simp only [validateParamsList, hval, hfv]
          cases hr : validateParamsList rest with
          | error e => rfl
          | ok l => rw [hr] at hrest; simp [Except.isOk, Except.toBool] at hrest

/-- C3.  Closed-world parameter policy: if the parameter bag contains any key
with no registered validator, `validateParameters` rejects (throws for) the
whole request, regardless of the action name and of the validity of the
other parameters. -/
theorem validateParameters_rejects_unknown_key (action : String)
    (params : List (String × JSV)) (k : String) (v : JSV)
    (hmem : (k, v) ∈ params) (hk : recognizedKey k = false) :
    (validateParameters action params).isOk = false := by
  have h := validateParamsList_unknown_key k v params hmem hk
  unfold validateParameters
  cases hr : validateParamsList params with
  | error e => rfl
  | ok l => rw [hr] at h; simp [Except.isOk, Except.toBool] at h

/-- Witness for C3: a `click_element` request whose `id` parameter is
perfectly valid is still rejected because of the unrecognized key
`frobnicate`. -/
theorem validateParameters_rejects_unknown_key_witness :
    (validateParameters "click_element"
      [("id", .num 3), ("frobnicate", .str "x")]).isOk = false :=
  validateParameters_rejects_unknown_key "click_element" _ "frobnicate" (.str "x")
    (by decide) (by decide)

/-- C4.  The `url` validator accepts only strings that parse as http/https
URLs whose hostname is not `localhost`, does not start with `127.`, `10.` or
`192.168.`, and does not end in `.local`; in particular the three private
URLs are rejected and `https://example.com/page` is accepted (and returned
normalized). -/
theorem url_validator_guard :
    (∀ (s : String) (r : JSV), validateUrlParam (.str s) = some r →
      ∃ u, parseURL s = some u ∧
        (u.protocol = "http:" ∨ u.protocol = "https:") ∧
        jsToLower u.hostname ≠ "localhost" ∧
        strStartsWith (jsToLower u.hostname) "127." = false ∧
        strStartsWith (jsToLower u.hostname) "10." = false ∧
        strStartsWith (jsToLower u.hostname) "192.168." = false ∧
        strEndsWith (jsToLower u.hostname) ".local" = false) ∧
    validateUrlParam (.str "http://localhost/index.html") = none ∧
    validateUrlParam (.str "http://127.0.0.1/admin") = none ∧
    validateUrlParam (.str "http://10.0.0.5/internal") = none ∧
    validateUrlParam (.str "https://example.com/page") =
      some (.str "https://example.com/page") := by
  refine ⟨?_, by decide, by decide, by decide, by decide⟩
  intro s r h
  simp only [validateUrlParam] at h
  cases hp : parseURL s with
  | none => rw [hp] at h; exact absurd h (by simp)
  | some u =>
    rw [hp] at h
    dsimp only at h
    refine ⟨u, rfl, ?_⟩
    split_ifs at h with h1 h2
    · simp at h1 h2
      exact ⟨or_iff_not_imp_left.mpr h1, h2.1.1.1.1, h2.1.1.1.2, h2.1.2, h2.1.1.2, h2.2⟩

/-- A pattern occurring in the tail `t` of a character list occurs in
`s ++ t`. -/
theorem containsSeg_append_right (pat : List Char) (t : List Char) :
    ∀ s : List Char, containsSeg pat t = true → containsSeg pat (s ++ t) = true := by
  intro s ht
  induction s with
  | nil => simpa using ht
  | cons c rest ih =>
    simp only [List.cons_append, containsSeg, Bool.or_eq_true]
    exact Or.inr ih

/-- A pattern occurring in the string `t` occurs in `s ++ t`. -/
theorem strContains_append_right (s t pat : String) :
    strContains t pat = true → strContains (s ++ t) pat = true := by
  intro h
  unfold strContains at *
  have : (s ++ t).toList = s.toList ++ t.toList := by simp [String.toList]
  rw [this]
  exact containsSeg_append_right _ _ _ h

/-- C5.  `typeText`'s role/subtype gating: a non-text-entry role is rejected
with a descriptive error naming `click_element`; a truthy input subtype from
the button/submit/checkbox/radio/file/image/reset list is rejected likewise;
and an `input`/`textarea` element whose subtype is not in that list passes
the validation. -/
theorem typeText_role_subtype_gating :
    ∀ (elementId : Nat) (el : ElemDetails),
      (supportedRoles.contains el.role = false →
        ∃ msg, typeTextValidation elementId el = .error msg ∧
          strContains msg "click_element" = true) ∧
      (∀ t, el.input_type = some t → unsupportedInputTypes.contains t = true →
        ∃ msg, typeTextValidation elementId el = .error msg ∧
          strContains msg "click_element" = true) ∧
      ((el.role = "input" ∨ el.role = "textarea") →
        (∀ t, el.input_type = some t → unsupportedInputTypes.contains t = false) →
        typeTextValidation elementId el = .ok ()) := by
  intro elementId el
  refine ⟨?_, ?_, ?_⟩
  · intro hrole
    have heq : typeTextValidation elementId el = .error
        ("Cannot type text into element " ++ toString elementId ++
          ": elements with role \x27" ++ el.role ++
          "\x27 do not support text input. Supported roles: input, textarea. " ++
          "Use click_element for buttons or find the associated input field.") := by
      simp only [typeTextValidation, hrole, Bool.not_false, if_true]
    refine ⟨_, heq, ?_⟩
    apply strContains_append_right
    decide
  · intro t hty hct
    by_cases hrole : supportedRoles.contains el.role
    · have htne : t ≠ "" := by
        intro h; rw [h] at hct; exact absurd hct (by decide)
      have heq : typeTextValidation elementId el = .error
          ("Element " ++ toString elementId ++ " has input_type \"" ++ t ++
            "\" which doesn\x27t support text input. Use click_element instead of type_text.") := by
        simp only [typeTextValidation, hrole, Bool.not_true, Bool.false_eq_true, if_false, hty]
        rw [if_pos ⟨htne, hct⟩]
      refine ⟨_, heq, ?_⟩
      apply strContains_append_right
      decide
    · have hrole2 : supportedRoles.contains el.role = false := by
        simpa using hrole
      have heq : typeTextValidation elementId el = .error
        ("Cannot type text into element " ++ toString elementId ++
          ": elements with role \x27" ++ el.role ++
          "\x27 do not support text input. Supported roles: input, textarea. " ++
          "Use click_element for buttons or find the associated input field.") := by
        simp only [typeTextValidation, hrole2, Bool.not_false, if_true]
      refine ⟨_, heq, ?_⟩
      apply strContains_append_right
      decide
  · intro hrole hty
    have hrole2 : supportedRoles.contains el.role = true := by
      rcases hrole with h | h <;> simp [supportedRoles, h]
    simp only [typeTextValidation, hrole2, Bool.not_true, Bool.false_eq_true, if_false]
    cases hta : el.input_type with
    | none => rfl
    | some t =>
      have hcf := hty t hta
      simp only [hta]
      rw [if_neg (by rintro ⟨-, hc⟩; rw [hcf] at hc; exact Bool.false_ne_true hc)]

/-- Witness for C5: typing into a `button` element fails with a
`click_element`-naming error, typing into an `input` of subtype `checkbox`
fails likewise, and typing into an `input` of subtype `text` passes. -/
theorem typeText_role_subtype_gating_witness :
    (∃ msg, typeTextValidation 7 ⟨"button", none⟩ = .error msg ∧
      strContains msg "click_element" = true) ∧
    (∃ msg, typeTextValidation 7 ⟨"input", some "checkbox"⟩ = .error msg ∧
      strContains msg "click_element" = true) ∧
    typeTextValidation 7 ⟨"input", some "text"⟩ = .ok () := by
  refine ⟨?_, ?_, ?_⟩
  · exact (typeText_role_subtype_gating 7 ⟨"button", none⟩).1 (by decide)
  · exact (typeText_role_subtype_gating 7 ⟨"input", some "checkbox"⟩).2.1
      "checkbox" rfl (by decide)
  · exact (typeText_role_subtype_gating 7 ⟨"input", some "text"⟩).2.2
      (Or.inl rfl) (fun t ht => by injection ht with h; rw [← h]; decide)

/-- C6.  The risk gate fails closed: whenever the classifier call throws, or
its response has no JSON, malformed JSON, a missing required field, or an
invalid tier value, `evaluateRisk` (with evaluation enabled) returns an
assessment whose tier is HIGH and whose confirmation flag is true — it never
falls back to LOW on classifier failure. -/
theorem risk_evaluation_fails_closed :
    ∀ (call : Except String ClassifierText), classifierFailed call = true →
      (evaluateRisk true call).risk_level = "HIGH" ∧
      (evaluateRisk true call).requires_confirmation = true := by
  intro call hfail
  cases call with
  | error e => exact ⟨rfl, rfl⟩
  | ok t =>
    cases t with
    | noJson => exact ⟨rfl, rfl⟩
    | badJson e => exact ⟨rfl, rfl⟩
    | json p =>
      simp only [classifierFailed, Bool.or_eq_true] at hfail
      simp only [evaluateRisk, Bool.not_true, Bool.false_eq_true, if_false,
        parseRiskAssessment]
      split_ifs with h1 h2
      · exact ⟨rfl, rfl⟩
      · exact ⟨rfl, rfl⟩
      · exfalso
        rcases hfail with ((hrl | hrs) | hrc) | hvl
        · exact h1 (by simp [hrl])
        · exact h1 (by simp [hrs])
        · exact h1 (by simp [hrc])
        · exact h2 (by simpa using hvl)

/-- Witness for C6: a thrown classifier call yields HIGH with confirmation
required. -/
theorem risk_evaluation_fails_closed_witness :
    (evaluateRisk true (.error "ECONNREFUSED")).risk_level = "HIGH" ∧
    (evaluateRisk true (.error "ECONNREFUSED")).requires_confirmation = true :=
  risk_evaluation_fails_closed (.error "ECONNREFUSED") (by decide)

/-- C10.  With risk evaluation disabled, `evaluateRisk` returns tier LOW
with `requires_confirmation` false for every possible classifier outcome:
the result does not depend on the `call` argument at all, which is the
model's rendering of the fact that the disabled branch returns before the
classifier is ever invoked. -/
theorem risk_disabled_returns_low (call : Except String ClassifierText) :
    evaluateRisk false call =
      { risk_level := "LOW", reasoning := "Risk evaluation is disabled",
        requires_confirmation := false } := rfl

/-- C7 (counterexample).  A `navigate_to` action whose `url` parameter is
`file:///etc/passwd` matches the denylisted parameter pattern `file://`
(`shouldBlockAction` would return true), yet `executeAction` raises the
validator's `Invalid parameter` error — not the blocked-by-security-policy
error the claim promises — because parameter validation runs first and the
`url` validator already rejects non-http(s) schemes. -/
theorem blocked_pattern_rejected_by_validator_first :
    shouldBlockAction blockedNavAction
      { action := blockedNavAction, current_url := "https://example.com",
        target_element := none } = true ∧
    executeAction (some 1) anyExecEnv "https://example.com" blockedNavAction =
      (.error "Invalid parameter url with value: file:///etc/passwd", []) ∧
    "Invalid parameter url with value: file:///etc/passwd" ≠
      "Action blocked by security policy: " ++ blockedNavAction.tool := by
  refine ⟨by decide, by rfl, by decide⟩

/-- C7 (amended).  For every action that passes parameter validation and
matches the denylist (by tool name or serialized parameters),
`executeAction` raises the `Action blocked by security policy` error with a
trace containing only the context read: the risk classifier is never
consulted and no browser operation of the switch is performed, for every
possible classifier outcome and confirmation answer. -/
theorem executeAction_hard_block_precedes_classifier
    (pid : Nat) (env : ExecEnv) (url : String) (action : AgentAction)
    (hval : (validateParameters action.tool action.parameters).isOk = true)
    (hblock : shouldBlockAction action
      { action := action, current_url := url,
        target_element := env.targetElement } = true) :
    executeAction (some pid) env url action =
      (.error ("Action blocked by security policy: " ++ action.tool),
        [ExecEvent.contextRead]) ∧
    ExecEvent.classifierCall ∉ (executeAction (some pid) env url action).2 ∧
    ∀ t, ExecEvent.browserOp t ∉ (executeAction (some pid) env url action).2 := by
  have heq : executeAction (some pid) env url action =
      (.error ("Action blocked by security policy: " ++ action.tool),
        [ExecEvent.contextRead]) := by
    cases hv : validateParameters action.tool action.parameters with
    | error e => rw [hv] at hval; simp [Except.isOk, Except.toBool] at hval
    | ok l =>
      simp only [executeAction, hv, executeActionValidated, executeActionChecked]
      rw [if_pos hblock]
  refine ⟨heq, ?_, ?_⟩
  · rw [heq]; simp
  · intro t; rw [heq]; simp

/-- Witness for C7: the denylisted tool name `execute_script` (parameters
valid) is hard-blocked before the classifier and before any browser
operation. -/
theorem executeAction_hard_block_precedes_classifier_witness :
    executeAction (some 1) anyExecEnv "https://example.com"
      { tool := "execute_script", parameters := [] } =
      (.error "Action blocked by security policy: execute_script",
        [ExecEvent.contextRead]) :=
  (executeAction_hard_block_precedes_classifier 1 anyExecEnv "https://example.com"
    { tool := "execute_script", parameters := [] } (by decide) (by decide)).1

/-- C8.  `registerPage` is idempotent: registering a handle twice returns
the same id both times without changing the registry at all — in particular
the live tab count does not grow on the second call — because the
already-registered check runs before the id counter is touched. -/
theorem registerPage_idempotent (st : BrowserState) (p : PageHandle) :
    registerPage (registerPage st p).2 p =
      ((registerPage st p).1, (registerPage st p).2) ∧
    getTabCount (registerPage (registerPage st p).2 p).2 =
      getTabCount (registerPage st p).2 := by
  have key : registerPage (registerPage st p).2 p =
      ((registerPage st p).1, (registerPage st p).2) := by
    cases hf : st.pages.find? (fun kv => kv.2 = p) with
    | some kv =>
      simp only [registerPage, hf]
    | none =>
      simp only [registerPage, hf]
      have happ : (st.pages ++ [(st.nextPageId, p)]).find? (fun kv => kv.2 = p) =
          some (st.nextPageId, p) := by
        rw [List.find?_append, hf]
        simp
      simp [happ]
  exact ⟨key, by rw [key]⟩

/-- C9 (counterexample).  With working directory `/work` (directories `/work`
and its sibling `/workevil` existing): the extensionless path `shot`
resolves to `/work/shot`, whose extension `""` is not in the image
allowlist, yet sanitization accepts it and the screenshot is written there
— because the source guards the allowlist check with `if (ext && ...)`.
Moreover `/workevil/img.png` lies outside the `/work` directory tree (it is
not under `/work/`), yet it passes the `startsWith` string-prefix check and
is written as well. -/
theorem sanitize_accepts_extensionless_and_sibling_path :
    sanitizeFilePath screenshotFs "shot" = some "/work/shot" ∧
    extnamePath "/work/shot" = "" ∧
    validExtensions.contains (extnamePath "/work/shot") = false ∧
    takeScreenshot screenshotFs true (some "shot") = .ok (some "/work/shot") ∧
    sanitizeFilePath screenshotFs "/workevil/img.png" = some "/workevil/img.png" ∧
    strStartsWith "/workevil/img.png" "/work/" = false ∧
    takeScreenshot screenshotFs true (some "/workevil/img.png") =
      .ok (some "/workevil/img.png") := by
  refine ⟨by rfl, by decide, by decide, by rfl, by rfl, by decide, by rfl⟩

/-- C9 (amended).  A screenshot file is written only at a path accepted by
`sanitizeFilePath`, and sanitization accepts only when the resolved
absolute path extends the working-directory string (a string-prefix check,
not a directory-tree check), the containing directory exists, and the
extension — when non-empty — is in the image allowlist; extensionless paths
are accepted. -/
theorem screenshot_write_requires_sanitized_path :
    (∀ (env : FsEnv) (p sp : String), sanitizeFilePath env p = some sp →
      sp = resolvePath env.cwd p ∧
      strStartsWith sp env.cwd = true ∧
      env.dirExists (dirnamePath sp) = true ∧
      (jsToLower (extnamePath sp) = "" ∨
        validExtensions.contains (jsToLower (extnamePath sp)) = true)) ∧
    (∀ (env : FsEnv) (pe : Bool) (p : String) (r : Option String),
      takeScreenshot env pe (some p) = .ok r →
      ∃ sp, sanitizeFilePath env p = some sp ∧ r = some sp) := by
  constructor
  · intro env p sp h
    unfold sanitizeFilePath at h
    split_ifs at h with h1 h2 h3
    · have hsp : sp = resolvePath env.cwd p := by
        injection h with h'; exact h'.symm
      subst hsp
      refine ⟨rfl, ?_, ?_, ?_⟩
      · simpa using h1
      · simpa using h2
      · rcases Decidable.em (jsToLower (extnamePath (resolvePath env.cwd p)) = "") with he | he
        · exact Or.inl he
        · right
          by_contra hc
          exact h3 ⟨he, by simpa using hc⟩
  · intro env pe p r h
    unfold takeScreenshot at h
    split_ifs at h with h1
    simp only [screenshotWrite] at h
    cases hs : sanitizeFilePath env p with
    | none =>
      rw [hs] at h
      simp [screenshotWriteSanitized] at h
    | some sp =>
      rw [hs] at h
      simp only [screenshotWriteSanitized] at h
      injection h with h'
      exact ⟨sp, rfl, h'.symm⟩

/-- Witness for C9: the accepted path `/work/img.png` (from request
`img.png` under cwd `/work`) satisfies all three sanitization conditions. -/
theorem screenshot_write_requires_sanitized_path_witness :
    strStartsWith "/work/img.png" "/work" = true ∧
    screenshotFs.dirExists (dirnamePath "/work/img.png") = true ∧
    (jsToLower (extnamePath "/work/img.png") = "" ∨
      validExtensions.contains (jsToLower (extnamePath "/work/img.png")) = true) := by
  have h := (screenshot_write_requires_sanitized_path).1 screenshotFs "img.png"
    "/work/img.png" (by rfl)
  exact ⟨h.2.1, h.2.2.1, h.2.2.2⟩

/-- Witness for C4: the accepted URL `https://example.com/page` indeed
parses with an allowed scheme and a hostname passing every guard. -/
theorem url_validator_guard_witness :
    ∃ u, parseURL "https://example.com/page" = some u ∧
      (u.protocol = "http:" ∨ u.protocol = "https:") ∧
      jsToLower u.hostname ≠ "localhost" ∧
      strStartsWith (jsToLower u.hostname) "127." = false ∧
      strStartsWith (jsToLower u.hostname) "10." = false ∧
      strStartsWith (jsToLower u.hostname) "192.168." = false ∧
      strEndsWith (jsToLower u.hostname) ".local" = false :=
  (url_validator_guard).1 "https://example.com/page"
    (.str "https://example.com/page") (by decide)
